import Mathlib

/-!
Verification of the Smart-Irrigation-NPK dashboard's recommendation logic.

The development embeds the two source files of the repository:

* `frontend/utils.py` — `generate_recommendations`, a pure function that walks
  the rows of a forecast DataFrame, classifies each `predicted_value` into one
  of four nitrogen bands via a strict `>` if/elif chain (thresholds 70, 55,
  40), renders a band template with the value interpolated to two decimals,
  appends a fixed soil-health block, and stores the text in a dict keyed by
  the row's `date` label (Python dicts preserve insertion order; assigning to
  an existing key overwrites in place).

* `frontend/app.py` — `get_forecast`, which returns the parsed JSON body when
  the HTTP status is 200 and `None` otherwise (displaying an error message in
  both failure shapes), and the forecast-tab rendering, which assigns the six
  fixed labels "Month 1".."Month 6" as a new DataFrame column, an operation
  that raises when the forecast list does not have exactly six rows.

`predicted_value` is a Python float; it is embedded as `ℚ`.  Dict and
DataFrame values are embedded as association lists of rows.
-/

namespace SmartIrrigation

/-- One row of the forecast DataFrame handed to `generate_recommendations`:
the `date` column holds the period label ("Month 1".."Month 6" in the app),
`predicted_value` the forecast nitrogen value, `lower_ci`/`upper_ci` the
confidence bounds.  Only `date` and `predicted_value` are read by the
generator. -/
structure Row where
  date : String
  predicted_value : ℚ
  lower_ci : ℚ
  upper_ci : ℚ
  deriving DecidableEq

/-- Embeds the f-string conversion `{n_value:.2f}`: the value rounded to two
decimal places and rendered with exactly two fractional digits.  The rounding
is to the nearest hundredth (`⌊100q + 1/2⌋`, computed on numerator and
denominator so the kernel can evaluate it); CPython formats the nearest binary
double, which agrees at every value that is not an exact two-decimal tie. -/
def fmt2 (q : ℚ) : String :=
  let n : ℤ := Int.fdiv (200 * q.num + (q.den : ℤ)) (2 * (q.den : ℤ))
  let m : ℕ := n.natAbs
  (if n < 0 then "-" else "") ++ toString (m / 100) ++ "." ++
    (if m % 100 < 10 then "0" else "") ++ toString (m % 100)

/-- Template of the `n_value > 70` branch of `generate_recommendations`. -/
def highText (v : ℚ) : String :=
  "\n            *High Nitrogen Required: " ++ fmt2 v ++
  "*\n            \n            - Apply high-nitrogen fertilizers like Ammonium Nitrate or Urea\n            - Recommended application rate: 2.5-3.0 kg per acre\n            - Apply in split doses to prevent nitrogen runoff\n            - Monitor plants for signs of excess nitrogen (excessive vegetative growth)\n            - Consider soil testing before application\n            "

/-- Template of the `n_value > 55` branch of `generate_recommendations`. -/
def moderateHighText (v : ℚ) : String :=
  "\n            *Moderate-High Nitrogen Required: " ++ fmt2 v ++
  "*\n            \n            - Apply balanced NPK fertilizer with higher N content (e.g., 20-10-10)\n            - Recommended application rate: 2.0-2.5 kg per acre\n            - Focus on slow-release nitrogen sources\n            - For leafy crops, consider foliar nitrogen application\n            - Monitor soil moisture to maximize nitrogen uptake\n            "

/-- Template of the `n_value > 40` branch of `generate_recommendations`. -/
def moderateText (v : ℚ) : String :=
  "\n            *Moderate Nitrogen Required: " ++ fmt2 v ++
  "*\n            \n            - Apply balanced NPK fertilizer (e.g., 15-15-15)\n            - Recommended application rate: 1.5-2.0 kg per acre\n            - Incorporate organic matter to improve nitrogen retention\n            - Consider crop rotation with legumes in future planning\n            - Monitor for signs of nitrogen deficiency (yellowing of older leaves)\n            "

/-- Template of the final `else` branch of `generate_recommendations`. -/
def lowModerateText (v : ℚ) : String :=
  "\n            *Low-Moderate Nitrogen Required: " ++ fmt2 v ++
  "*\n            \n            - Apply light nitrogen fertilization (e.g., 10-10-10)\n            - Recommended application rate: 1.0-1.5 kg per acre\n            - Consider organic alternatives like compost or manure\n            - Implement cover crops to build soil nitrogen naturally\n            - Avoid over-application which may lead to nutrient runoff\n            "

/-- The band-independent block that the `recommendation +=` statement of
`generate_recommendations` appends to every recommendation. -/
def soilHealthNotes : String :=
  "\n        \n        *Additional Soil Health Recommendations:*\n        - Maintain proper soil pH (6.0-7.0) for optimal nutrient availability\n        - Ensure adequate soil moisture for nutrient uptake\n        - Consider micronutrient supplements if deficiency symptoms are present\n        - Practice sustainable soil management to improve long-term fertility\n        "

/-- The loop body of `generate_recommendations` stripped of the dict store:
the if/elif chain on `n_value` with strict `>` comparisons, followed by the
concatenation of the soil-health block. -/
def advisoryFor (n_value : ℚ) : String :=
  (if n_value > 70 then highText n_value
   else if n_value > 55 then moderateHighText n_value
   else if n_value > 40 then moderateText n_value
   else lowModerateText n_value) ++ soilHealthNotes

/-- Python dict assignment on an insertion-ordered dict embedded as an association list:
if `k` is already a key, its value is overwritten in place; otherwise the new
pair is appended at the end, exactly the Python dict semantics used by
`recommendations[month] = recommendation`. -/
def dictInsert : List (String × String) → String → String → List (String × String)
  | [], k, v => [(k, v)]
  | p :: d, k, v => if p.1 = k then (k, v) :: d else p :: dictInsert d k v

/-- One iteration of the `for index, row in forecast_df.iterrows()` loop:
reads `row.date` and `row.predicted_value` and stores the advisory text under
the date key. -/
def updateRec (recommendations : List (String × String)) (row : Row) :
    List (String × String) :=
  dictInsert recommendations row.date (advisoryFor row.predicted_value)

/-- Embedding of `generate_recommendations` from `frontend/utils.py`: starts
from the empty dict and runs the row loop over the DataFrame. -/
def generate_recommendations (forecast_df : List Row) : List (String × String) :=
  forecast_df.foldl updateRec []

/-- The four advisory bands of the if/elif chain, ordered by severity. -/
inductive Band
  | lowModerate
  | moderate
  | moderateHigh
  | high
  deriving DecidableEq

/-- Which branch of the if/elif chain fires for a given value. -/
def bandOf (v : ℚ) : Band :=
  if v > 70 then .high
  else if v > 55 then .moderateHigh
  else if v > 40 then .moderate
  else .lowModerate

/-- The label the specification associates with each band. -/
def Band.label : Band → String
  | .high => "High Nitrogen"
  | .moderateHigh => "Moderate-High"
  | .moderate => "Moderate Nitrogen"
  | .lowModerate => "Low-Moderate"

/-- Severity rank: Low-Moderate < Moderate < Moderate-High < High. -/
def Band.rank : Band → ℕ
  | .lowModerate => 0
  | .moderate => 1
  | .moderateHigh => 2
  | .high => 3

/-- The template selected by each band. -/
def Band.text : Band → ℚ → String
  | .high, v => highText v
  | .moderateHigh, v => moderateHighText v
  | .moderate, v => moderateText v
  | .lowModerate, v => lowModerateText v

/-- One item of the JSON "forecast" array returned by the remote service. -/
structure RawPoint where
  predicted_value : ℚ
  lower_ci : ℚ
  upper_ci : ℚ
  deriving DecidableEq

/-- The parsed JSON body of the forecast response, at the granularity the
forecast tab observes: the empty object (falsy in Python, so it fails the
`if forecast_data:` guard), a non-empty object without a "forecast" key, or
an object carrying a "forecast" array. -/
inductive Body
  | emptyDict
  | dictWithout (key : String)
  | dictWith (forecast : List RawPoint)
  deriving DecidableEq

/-- Python truthiness of the parsed body: only the empty dict is falsy. -/
def Body.truthy : Body → Bool
  | .emptyDict => false
  | _ => true

/-- Lookup of the "forecast" key in the parsed body. -/
def Body.forecastKey : Body → Option (List RawPoint)
  | .dictWith pts => some pts
  | _ => none

/-- Outcome of the `requests.get` call in `get_forecast`: either a response
with a status code and parsed body, or an exception from the transport layer
(caught by the surrounding `try`). -/
inductive FetchOutcome
  | response (status : ℕ) (body : Body)
  | connectionError (msg : String)
  deriving DecidableEq

/-- Embedding of `get_forecast` from `frontend/app.py`.  The first component
is the return value (`None` embedded as `none`); the second collects the
`st.error` messages displayed during the call. -/
def get_forecast : FetchOutcome → Option Body × List String
  | .response status body =>
      if status = 200 then (some body, [])
      else (none, ["Error fetching forecast: " ++ toString status])
  | .connectionError e => (none, ["Error connecting to API: " ++ e])

/-- The six fixed labels the forecast tab assigns as the `date` column. -/
def monthLabels : List String :=
  (List.range 6).map (fun i => "Month " ++ toString (i + 1))

/-- What the forecast tab displays when it completes without raising. -/
inductive RenderOutcome
  | rendered (recommendations : List (String × String))
  | apiErrorShown
  deriving DecidableEq

/-- Embedding of the tab4 forecast rendering in `app.py`: when
`forecast_data` is truthy, `forecast_data[...]` raises a KeyError if the
"forecast" key is absent, and the column assignment of the six "Month i"
labels raises a ValueError unless the DataFrame has exactly six rows;
otherwise the recommendations are generated and shown.  A falsy or missing
`forecast_data` takes the `else` branch and shows the inline API error.
`Except.error` models a raised exception. -/
def renderForecastTab (forecast_data : Option Body) : Except String RenderOutcome :=
  match forecast_data with
  | some body =>
      if body.truthy then
        match body.forecastKey with
        | none => Except.error "KeyError: forecast"
        | some pts =>
            if pts.length = 6 then
              Except.ok (RenderOutcome.rendered (generate_recommendations
                (List.zipWith
                  (fun lbl p => ⟨lbl, p.predicted_value, p.lower_ci, p.upper_ci⟩)
                  monthLabels pts)))
            else Except.error "ValueError: Length of values does not match length of index"
      else Except.ok RenderOutcome.apiErrorShown
  | none => Except.ok RenderOutcome.apiErrorShown

/-- A sequence of independent calls to `generate_recommendations`, modelling
repeated renders: the generator keeps no state, so a session is just the list
of per-call results. -/
def runCalls (calls : List (List Row)) : List (List (String × String)) :=
  calls.map generate_recommendations

/-- String `pat` occurs as a contiguous substring of `hay`. -/
def ContainsSubstr (hay pat : String) : Prop :=
  pat.data <:+: hay.data

instance (hay pat : String) : Decidable (ContainsSubstr hay pat) :=
  inferInstanceAs (Decidable (pat.data <:+: hay.data))

/-- String `s` ends with the string `t`. -/
def EndsWith (s t : String) : Prop :=
  t.data <:+ s.data

instance (s t : String) : Decidable (EndsWith s t) :=
  inferInstanceAs (Decidable (t.data <:+ s.data))

/-! ### Helper lemmas -/

theorem string_data_append (a b : String) : (a ++ b).data = a.data ++ b.data :=
  rfl

theorem containsSubstr_append_left (a b p : String)
    (h : ContainsSubstr a p) : ContainsSubstr (a ++ b) p := by
  obtain ⟨s, t, hst⟩ := h
  exact ⟨s, t ++ b.data, by rw [string_data_append, ← hst]; simp⟩

theorem containsSubstr_append_right (a b p : String)
    (h : ContainsSubstr b p) : ContainsSubstr (a ++ b) p := by
  obtain ⟨s, t, hst⟩ := h
  exact ⟨a.data ++ s, t, by rw [string_data_append, ← hst]; simp⟩

theorem containsSubstr_refl (s : String) : ContainsSubstr s s :=
  ⟨[], [], by simp⟩

theorem endsWith_append (a b : String) : EndsWith (a ++ b) b :=
  ⟨a.data, rfl⟩

theorem advisoryFor_eq_band (v : ℚ) :
    advisoryFor v = (bandOf v).text v ++ soilHealthNotes := by
  unfold advisoryFor bandOf
  split_ifs <;> rfl

theorem bandText_contains_label (b : Band) (v : ℚ) :
    ContainsSubstr (b.text v ++ soilHealthNotes) b.label := by
  cases b <;>
    exact containsSubstr_append_left _ _ _ (containsSubstr_append_left _ _ _
      (containsSubstr_append_left _ _ _ (by decide)))

theorem bandText_contains_fmt2 (b : Band) (v : ℚ) :
    ContainsSubstr (b.text v ++ soilHealthNotes) (fmt2 v) := by
  cases b <;>
    exact containsSubstr_append_left _ _ _ (containsSubstr_append_left _ _ _
      (containsSubstr_append_right _ _ _ (containsSubstr_refl _)))

theorem mem_dictInsert (d : List (String × String)) (k v : String)
    (p : String × String) (h : p ∈ dictInsert d k v) : p ∈ d ∨ p = (k, v) := by
  induction d with
  | nil =>
      simp only [dictInsert, List.mem_singleton] at h
      exact Or.inr h
  | cons q d ih =>
      by_cases hq : q.1 = k
      · simp only [dictInsert, if_pos hq, List.mem_cons] at h
        rcases h with h | h
        · exact Or.inr h
        · exact Or.inl (List.mem_cons_of_mem _ h)
      · simp only [dictInsert, if_neg hq, List.mem_cons] at h
        rcases h with h | h
        · exact Or.inl (h ▸ List.mem_cons_self _ _)
        · rcases ih h with h2 | h2
          · exact Or.inl (List.mem_cons_of_mem _ h2)
          · exact Or.inr h2

theorem dictInsert_of_not_mem_keys (d : List (String × String)) (k v : String)
    (h : k ∉ d.map Prod.fst) : dictInsert d k v = d ++ [(k, v)] := by
  induction d with
  | nil => rfl
  | cons q d ih =>
      simp only [List.map_cons, List.mem_cons] at h
      push_neg at h
      have hne : ¬ q.1 = k := fun hq => h.1 hq.symm
      rw [show dictInsert (q :: d) k v =
            (if q.1 = k then (k, v) :: d else q :: dictInsert d k v) from rfl,
        if_neg hne, ih h.2]
      rfl

theorem mem_keys_dictInsert_self (d : List (String × String)) (k v : String) :
    k ∈ (dictInsert d k v).map Prod.fst := by
  induction d with
  | nil => simp [dictInsert]
  | cons q d ih =>
      by_cases hq : q.1 = k
      · simp [dictInsert, if_pos hq]
      · simpa [dictInsert, if_neg hq] using Or.inr ih

theorem mem_keys_dictInsert_of_mem (d : List (String × String)) (k v a : String)
    (h : a ∈ d.map Prod.fst) : a ∈ (dictInsert d k v).map Prod.fst := by
  induction d with
  | nil => simp at h
  | cons q d ih =>
      rw [List.map_cons] at h
      by_cases hq : q.1 = k
      · rw [show dictInsert (q :: d) k v =
              (if q.1 = k then (k, v) :: d else q :: dictInsert d k v) from rfl,
          if_pos hq, List.map_cons]
        rcases List.mem_cons.mp h with h | h
        · exact List.mem_cons.mpr (Or.inl (h.trans hq))
        · exact List.mem_cons.mpr (Or.inr h)
      · rw [show dictInsert (q :: d) k v =
              (if q.1 = k then (k, v) :: d else q :: dictInsert d k v) from rfl,
          if_neg hq, List.map_cons]
        rcases List.mem_cons.mp h with h | h
        · exact List.mem_cons.mpr (Or.inl h)
        · exact List.mem_cons.mpr (Or.inr (ih h))

theorem lookup_eq_some_of_mem_keys (d : List (String × String)) (a : String)
    (h : a ∈ d.map Prod.fst) : ∃ s, d.lookup a = some s := by
  induction d with
  | nil => simp at h
  | cons q d ih =>
      obtain ⟨k0, v0⟩ := q
      rw [List.map_cons] at h
      by_cases hq : a = k0
      · subst hq
        exact ⟨v0, by simp [List.lookup]⟩
      · have hb : (a == k0) = false := beq_eq_false_iff_ne.mpr hq
        rcases List.mem_cons.mp h with h | h
        · exact absurd h hq
        · obtain ⟨s, hs⟩ := ih h
          exact ⟨s, by simp [List.lookup, hb, hs]⟩

theorem foldl_updateRec_mem (rows : List Row) (d : List (String × String))
    (p : String × String) (h : p ∈ rows.foldl updateRec d) :
    p ∈ d ∨ ∃ r ∈ rows, p = (r.date, advisoryFor r.predicted_value) := by
  induction rows generalizing d with
  | nil => exact Or.inl h
  | cons r rows ih =>
      rcases ih (updateRec d r) h with h2 | ⟨r2, hr2, hp⟩
      · rcases mem_dictInsert d r.date (advisoryFor r.predicted_value) p h2 with h3 | h3
        · exact Or.inl h3
        · exact Or.inr ⟨r, List.mem_cons_self _ _, h3⟩
      · exact Or.inr ⟨r2, List.mem_cons_of_mem _ hr2, hp⟩

theorem mem_keys_foldl_updateRec_of_mem (rows : List Row)
    (d : List (String × String)) (a : String) (h : a ∈ d.map Prod.fst) :
    a ∈ (rows.foldl updateRec d).map Prod.fst := by
  induction rows generalizing d with
  | nil => exact h
  | cons r rows ih =>
      exact ih _ (mem_keys_dictInsert_of_mem d r.date _ a h)

theorem mem_keys_foldl_updateRec (rows : List Row) :
    ∀ (d : List (String × String)) (r : Row), r ∈ rows →
      r.date ∈ (rows.foldl updateRec d).map Prod.fst := by
  induction rows with
  | nil => intro d r hr; simp at hr
  | cons r0 rows ih =>
      intro d r hr
      rw [List.foldl_cons]
      rcases List.mem_cons.mp hr with h | h
      · subst h
        exact mem_keys_foldl_updateRec_of_mem rows _ r.date
          (mem_keys_dictInsert_self d r.date _)
      · exact ih _ r h

theorem keys_foldl_updateRec (rows : List Row) (d : List (String × String))
    (hd : ∀ r ∈ rows, r.date ∉ d.map Prod.fst)
    (hnd : (rows.map Row.date).Nodup) :
    (rows.foldl updateRec d).map Prod.fst = d.map Prod.fst ++ rows.map Row.date := by
  induction rows generalizing d with
  | nil => simp
  | cons r rows ih =>
      simp only [List.map_cons, List.nodup_cons] at hnd
      have hstep : updateRec d r = d ++ [(r.date, advisoryFor r.predicted_value)] :=
        dictInsert_of_not_mem_keys d _ _ (hd r (List.mem_cons_self _ _))
      have hd2 : ∀ r2 ∈ rows, r2.date ∉ (updateRec d r).map Prod.fst := by
        intro r2 hr2
        rw [hstep]
        simp only [List.map_append, List.mem_append, List.map_cons, List.map_nil,
          List.mem_singleton]
        rintro (hmem | hmem)
        · exact hd r2 (List.mem_cons_of_mem _ hr2) hmem
        · exact hnd.1 (hmem ▸ List.mem_map_of_mem Row.date hr2)
      calc ((r :: rows).foldl updateRec d).map Prod.fst
          = (rows.foldl updateRec (updateRec d r)).map Prod.fst := rfl
        _ = (updateRec d r).map Prod.fst ++ rows.map Row.date := ih _ hd2 hnd.2
        _ = d.map Prod.fst ++ (r :: rows).map Row.date := by
              rw [hstep]; simp

theorem foldl_updateRec_congr (rows1 rows2 : List Row)
    (d : List (String × String))
    (h : rows1.map (fun r => (r.date, r.predicted_value)) =
         rows2.map (fun r => (r.date, r.predicted_value))) :
    rows1.foldl updateRec d = rows2.foldl updateRec d := by
  induction rows1 generalizing rows2 d with
  | nil =>
      cases rows2 with
      | nil => rfl
      | cons r2 t2 => simp at h
  | cons r1 t1 ih =>
      cases rows2 with
      | nil => simp at h
      | cons r2 t2 =>
          simp only [List.map_cons, List.cons.injEq, Prod.mk.injEq] at h
          have hstep : updateRec d r1 = updateRec d r2 := by
            unfold updateRec
            rw [h.1.1, h.1.2]
          show t1.foldl updateRec (updateRec d r1) = t2.foldl updateRec (updateRec d r2)
          rw [hstep]
          exact ih t2 _ h.2

theorem bandOf_spec (v : ℚ) :
    (70 < v → bandOf v = Band.high)
    ∧ (55 < v → v ≤ 70 → bandOf v = Band.moderateHigh)
    ∧ (40 < v → v ≤ 55 → bandOf v = Band.moderate)
    ∧ (v ≤ 40 → bandOf v = Band.lowModerate) := by
  unfold bandOf
  refine ⟨fun h => if_pos h, fun h h2 => ?_, fun h h2 => ?_, fun h => ?_⟩
  · rw [if_neg (not_lt.mpr h2), if_pos h]
  · rw [if_neg (not_lt.mpr (h2.trans (by norm_num))), if_neg (not_lt.mpr h2),
      if_pos h]
  · rw [if_neg (not_lt.mpr (h.trans (by norm_num))),
      if_neg (not_lt.mpr (h.trans (by norm_num))), if_neg (not_lt.mpr h)]

/-! ### Claims -/

/-- C1: for every finite numeric predicted value, `generate_recommendations`
selects exactly one of the four bands by strict thresholds (high iff v > 70,
moderate-high iff 55 < v ≤ 70, moderate iff 40 < v ≤ 55, low-moderate iff
v ≤ 40, so bands are mutually exclusive and exhaustive), the advisory text of
a row carries the corresponding band label, and the value rendered to two
decimals is interpolated into the text. -/
theorem c1_band_and_text (v : ℚ) :
    (bandOf v = Band.high ↔ 70 < v)
    ∧ (bandOf v = Band.moderateHigh ↔ 55 < v ∧ v ≤ 70)
    ∧ (bandOf v = Band.moderate ↔ 40 < v ∧ v ≤ 55)
    ∧ (bandOf v = Band.lowModerate ↔ v ≤ 40)
    ∧ ContainsSubstr (advisoryFor v) (bandOf v).label
    ∧ ContainsSubstr (advisoryFor v) (fmt2 v)
    ∧ (∀ lbl lci uci,
        generate_recommendations [⟨lbl, v, lci, uci⟩] = [(lbl, advisoryFor v)]) := by
  obtain ⟨s1, s2, s3, s4⟩ := bandOf_spec v
  have hlabel : ContainsSubstr (advisoryFor v) (bandOf v).label := by
    rw [advisoryFor_eq_band v]
    exact bandText_contains_label _ v
  have hfmt : ContainsSubstr (advisoryFor v) (fmt2 v) := by
    rw [advisoryFor_eq_band v]
    exact bandText_contains_fmt2 _ v
  have tri : 70 < v ∨ (55 < v ∧ v ≤ 70) ∨ (40 < v ∧ v ≤ 55) ∨ v ≤ 40 := by
    rcases lt_or_le 70 v with h | h
    · exact Or.inl h
    rcases lt_or_le 55 v with h2 | h2
    · exact Or.inr (Or.inl ⟨h2, h⟩)
    rcases lt_or_le 40 v with h3 | h3
    · exact Or.inr (Or.inr (Or.inl ⟨h3, h2⟩))
    · exact Or.inr (Or.inr (Or.inr h3))
  rcases tri with h | ⟨h, h2⟩ | ⟨h, h2⟩ | h
  · have hb := s1 h
    refine ⟨?_, ?_, ?_, ?_, hlabel, hfmt, fun lbl lci uci => rfl⟩ <;> rw [hb] <;>
      simp <;> try push_neg
    all_goals intros
    all_goals first | exact ⟨h, h2⟩ | linarith
  · have hb := s2 h h2
    refine ⟨?_, ?_, ?_, ?_, hlabel, hfmt, fun lbl lci uci => rfl⟩ <;> rw [hb] <;>
      simp <;> try push_neg
    all_goals intros
    all_goals first | exact ⟨h, h2⟩ | linarith
  · have hb := s3 h h2
    refine ⟨?_, ?_, ?_, ?_, hlabel, hfmt, fun lbl lci uci => rfl⟩ <;> rw [hb] <;>
      simp <;> try push_neg
    all_goals intros
    all_goals first | exact ⟨h, h2⟩ | linarith
  · have hb := s4 h
    refine ⟨?_, ?_, ?_, ?_, hlabel, hfmt, fun lbl lci uci => rfl⟩ <;> rw [hb] <;>
      simp <;> try push_neg
    all_goals intros
    all_goals first | exact ⟨h, h2⟩ | linarith

set_option maxRecDepth 8000 in
/-- C1 witness: at the concrete input 80 the chosen band is high, and the
advisory contains both the band label and the formatted value. -/
theorem c1_band_and_text_witness :
    bandOf 80 = Band.high
    ∧ ContainsSubstr (advisoryFor 80) (Band.label (bandOf 80))
    ∧ ContainsSubstr (advisoryFor 80) (fmt2 80) :=
  ⟨(c1_band_and_text 80).1.mpr (by decide),
   (c1_band_and_text 80).2.2.2.2.1,
   (c1_band_and_text 80).2.2.2.2.2.1⟩

set_option maxRecDepth 8000 in
/-- C2: exact boundary values fall into the lower-labelled band because the
comparisons are strict: 70 is moderate-high (not high), 70.01 is high, 55 is
moderate, 40 is low-moderate; the advisory generated at 70 is the
moderate-high template and at 70.01 the high template. -/
theorem c2_boundary_bands :
    bandOf 70 = Band.moderateHigh
    ∧ bandOf (mkRat 7001 100) = Band.high
    ∧ bandOf 55 = Band.moderate
    ∧ bandOf 40 = Band.lowModerate
    ∧ advisoryFor 70 = moderateHighText 70 ++ soilHealthNotes
    ∧ advisoryFor (mkRat 7001 100) = highText (mkRat 7001 100) ++ soilHealthNotes :=
  ⟨by decide, by decide, by decide, by decide, rfl, rfl⟩

/-- C3: every advisory string produced by `generate_recommendations` ends
with the fixed soil-health guidance block, verbatim, for every input row and
every band. -/
theorem c3_soil_suffix (rows : List Row) (p : String × String)
    (h : p ∈ generate_recommendations rows) : EndsWith p.2 soilHealthNotes := by
  rcases foldl_updateRec_mem rows [] p h with h2 | ⟨r, _, hp⟩
  · simp at h2
  · rw [hp]
    show EndsWith (advisoryFor r.predicted_value) soilHealthNotes
    rw [advisoryFor_eq_band]
    exact endsWith_append _ _

set_option maxRecDepth 8000 in
/-- C3 witness: the single entry generated for a row with value 50 ends with
the soil-health block. -/
theorem c3_soil_suffix_witness : EndsWith (advisoryFor 50) soilHealthNotes :=
  c3_soil_suffix [⟨"Month 1", 50, 1, 2⟩] ("Month 1", advisoryFor 50) (by decide)

set_option maxRecDepth 8000 in
/-- C4 counterexample: with two input rows sharing the period label
"Month 1", the generated mapping has a single key, so its key list differs
from the input label list and there is not one recommendation per input
row. -/
theorem c4_duplicate_label_counterexample :
    ((generate_recommendations
        [⟨"Month 1", 50, 0, 0⟩, ⟨"Month 1", 80, 0, 0⟩]).map Prod.fst
      ≠ [(⟨"Month 1", 50, 0, 0⟩ : Row), ⟨"Month 1", 80, 0, 0⟩].map Row.date)
    ∧ (generate_recommendations
        [⟨"Month 1", 50, 0, 0⟩, ⟨"Month 1", 80, 0, 0⟩]).length ≠ 2 :=
  ⟨by decide, by decide⟩

/-- C4 (amended): when the input period labels are pairwise distinct — as
they are for the six labels the app assigns — the mapping returned by
`generate_recommendations` has exactly the input labels as keys, in input
order, with no label omitted or duplicated. -/
theorem c4_keys_preserve_input_order (rows : List Row)
    (h : (rows.map Row.date).Nodup) :
    (generate_recommendations rows).map Prod.fst = rows.map Row.date := by
  have hkeys := keys_foldl_updateRec rows [] (by simp) h
  simpa using hkeys

/-- C4 witness: six rows labelled "Month 1".."Month 6" yield exactly those
six keys in that order. -/
theorem c4_keys_preserve_input_order_witness :
    (generate_recommendations
        [⟨"Month 1", 71, 0, 0⟩, ⟨"Month 2", 60, 0, 0⟩, ⟨"Month 3", 45, 0, 0⟩,
         ⟨"Month 4", 30, 0, 0⟩, ⟨"Month 5", 55, 0, 0⟩, ⟨"Month 6", 70, 0, 0⟩]).map
      Prod.fst =
      ["Month 1", "Month 2", "Month 3", "Month 4", "Month 5", "Month 6"] :=
  (c4_keys_preserve_input_order _ (by decide)).trans (by decide)

/-- C5: the generated mapping depends only on each row's period label and
predicted value; rows that differ only in `lower_ci`, `upper_ci` or any other
field produce identical output. -/
theorem c5_value_determines_advisory (rows1 rows2 : List Row)
    (h : rows1.map (fun r => (r.date, r.predicted_value)) =
         rows2.map (fun r => (r.date, r.predicted_value))) :
    generate_recommendations rows1 = generate_recommendations rows2 :=
  foldl_updateRec_congr rows1 rows2 [] h

/-- C5 witness: two single-row inputs with equal label and value but
different confidence bounds generate equal output. -/
theorem c5_value_determines_advisory_witness :
    generate_recommendations [(⟨"Month 1", 50, 1, 2⟩ : Row)] =
      generate_recommendations [(⟨"Month 1", 50, 30, 99⟩ : Row)] :=
  c5_value_determines_advisory _ _ (by decide)

/-- C6: the generator is total over its numeric domain: for every input list
of rows (any finite rational values, including negatives and zero) it returns
a mapping in which every input row's period label is bound to some advisory
string — no error arises from the generator. -/
theorem c6_generator_total (rows : List Row) (r : Row) (h : r ∈ rows) :
    ∃ s, (generate_recommendations rows).lookup r.date = some s :=
  lookup_eq_some_of_mem_keys _ _ (mem_keys_foldl_updateRec rows [] r h)

/-- C6 witness: a row with a negative predicted value still gets a
recommendation. -/
theorem c6_generator_total_witness :
    ∃ s, (generate_recommendations [(⟨"Month 1", -3, 1, 2⟩ : Row)]).lookup
      "Month 1" = some s :=
  c6_generator_total [⟨"Month 1", -3, 1, 2⟩] ⟨"Month 1", -3, 1, 2⟩ (by decide)

/-- C7: `get_forecast` returns the parsed JSON body iff the response status
is 200, and in every failure case (non-200 status or transport error) it
returns `none` after displaying at least one error message. -/
theorem c7_fetch_none_iff (o : FetchOutcome) :
    (∀ b, (get_forecast o).1 = some b ↔ o = FetchOutcome.response 200 b)
    ∧ ((get_forecast o).1 = none → (get_forecast o).2 ≠ []) := by
  cases o with
  | response status body =>
      by_cases hs : status = 200
      · subst hs
        constructor
        · intro b
          simp [get_forecast]
        · intro hnone
          simp [get_forecast] at hnone
      · constructor
        · intro b
          simp [get_forecast, hs]
        · intro _
          simp [get_forecast, hs]
  | connectionError e =>
      constructor
      · intro b
        simp [get_forecast]
      · intro _
        simp [get_forecast]

/-- C7 witness: a 200 response yields its body, while a 404 response and a
connection error both yield `none` together with a displayed error. -/
theorem c7_fetch_none_iff_witness :
    (get_forecast (FetchOutcome.response 200 (Body.dictWith []))).1 =
        some (Body.dictWith [])
    ∧ ((get_forecast (FetchOutcome.response 404 Body.emptyDict)).1 = none
        ∧ (get_forecast (FetchOutcome.response 404 Body.emptyDict)).2 ≠ [])
    ∧ ((get_forecast (FetchOutcome.connectionError "connection refused")).1 = none
        ∧ (get_forecast (FetchOutcome.connectionError "connection refused")).2 ≠ []) :=
  ⟨((c7_fetch_none_iff _).1 _).mpr rfl,
   ⟨rfl, (c7_fetch_none_iff _).2 rfl⟩,
   ⟨rfl, (c7_fetch_none_iff _).2 rfl⟩⟩

/-- C8: the generator keeps no state between calls: in any sequence of calls,
the result of a call is exactly `generate_recommendations` of its own input,
independent of the calls made before or after it, so two calls with equal
inputs return equal results wherever they occur. -/
theorem c8_stateless (pre post : List (List Row)) (rows : List Row) :
    (runCalls (pre ++ rows :: post))[pre.length]? =
      some (generate_recommendations rows) := by
  induction pre with
  | nil => simp [runCalls]
  | cons c pre ih => simpa [runCalls] using ih

/-- C8 witness: in a three-call session the second call's result is the
generator applied to its own input. -/
theorem c8_stateless_witness :
    (runCalls [[(⟨"Month 1", 80, 0, 0⟩ : Row)], [(⟨"Month 2", 30, 0, 0⟩ : Row)],
        [(⟨"Month 1", 80, 0, 0⟩ : Row)]])[1]? =
      some (generate_recommendations [(⟨"Month 2", 30, 0, 0⟩ : Row)]) :=
  c8_stateless [[⟨"Month 1", 80, 0, 0⟩]] [[⟨"Month 1", 80, 0, 0⟩]]
    [⟨"Month 2", 30, 0, 0⟩]

/-- C9 counterexample: a 200 response whose body is the empty JSON object
lacks the "forecast" key, yet the tab rendering does not raise: the falsy
body fails the `if forecast_data:` guard and the inline API error is shown
instead. -/
theorem c9_empty_body_counterexample :
    Body.forecastKey Body.emptyDict = none
    ∧ renderForecastTab (some Body.emptyDict) = Except.ok RenderOutcome.apiErrorShown
    ∧ ¬ ∃ e, renderForecastTab (some Body.emptyDict) = Except.error e := by
  refine ⟨rfl, rfl, ?_⟩
  rintro ⟨e, he⟩
  simp [renderForecastTab, Body.truthy] at he

/-- C9 (amended): for a truthy (non-empty) 200 body, the forecast tab
rendering raises an exception when the "forecast" key is absent (KeyError) or
when the forecast list does not have exactly six items (ValueError from the
"Month 1".."Month 6" column assignment); only a falsy body such as the empty
object degrades to the inline error instead. -/
theorem c9_shape_mismatch_raises (body : Body) (ht : body.truthy = true)
    (h : body.forecastKey = none
      ∨ ∃ pts, body.forecastKey = some pts ∧ pts.length ≠ 6) :
    ∃ e, renderForecastTab (some body) = Except.error e := by
  rcases h with hn | ⟨pts, hp, hl⟩
  · exact ⟨"KeyError: forecast", by simp [renderForecastTab, ht, hn]⟩
  · exact ⟨"ValueError: Length of values does not match length of index",
      by simp [renderForecastTab, ht, hp, hl]⟩

/-- C9 witness: a body whose forecast list has five items makes the tab
rendering raise. -/
theorem c9_shape_mismatch_raises_witness :
    ∃ e, renderForecastTab (some (Body.dictWith
        [⟨50, 40, 60⟩, ⟨50, 40, 60⟩, ⟨50, 40, 60⟩, ⟨50, 40, 60⟩, ⟨50, 40, 60⟩])) =
      Except.error e :=
  c9_shape_mismatch_raises _ rfl (Or.inr ⟨_, rfl, by decide⟩)

/-- C10: band selection is monotone in the predicted value under the order
low-moderate < moderate < moderate-high < high. -/
theorem c10_band_monotone (v1 v2 : ℚ) (h : v1 ≤ v2) :
    (bandOf v1).rank ≤ (bandOf v2).rank := by
  unfold bandOf
  split_ifs with a1 a2 a3 a4 a5 a6
  all_goals try (exfalso; linarith)
  all_goals simp [Band.rank]

/-- C10 witness: 30 ≤ 80 and the band of 30 ranks no higher than the band of
80. -/
theorem c10_band_monotone_witness :
    (30 : ℚ) ≤ 80 ∧ (bandOf 30).rank ≤ (bandOf 80).rank :=
  ⟨by decide, c10_band_monotone 30 80 (by decide)⟩

end SmartIrrigation
